import Mathlib

/-!
Verification development for the Alberti snap-point engine.

The development shallowly embeds the intersection solvers and the snap-point
manager of SnapPoints.js, together with the tangent-line computation of
EllipticalShape.js, over the real numbers.  JavaScript floats are modelled as
reals; JavaScript division by zero follows Lean's `x / 0 = 0` convention
(the only places this could matter are degenerate zero-length segments).

Helper utilities (Util.js, Coord2D.js, SpatialHash.js) are part of the
repository but their sources are not available here; they are modelled from
the specification and are marked `Modelled from the spec:` below.
-/

noncomputable section

namespace Alberti

/-- Coordinate pair.  Modelled from the spec: Coord2D (spec §3 Point2D), the
value type stored in the spatial index; fields are float64 in the source,
modelled as reals. -/
structure Coord2D where
  x : ℝ
  y : ℝ

namespace Util

/-- Modelled from the spec: the default epsilon of Util.equals (spec §4.1,
"an epsilon parameter defaulting to a small constant"); the exact constant is
in Util.js which is not under src/.  Any value below 1e-6 (one unit of the
6-decimal rounding used by the circle-circle solver) yields the behaviour the
spec describes. -/
def tolerance : ℝ := 1e-8

/-- Modelled from the spec: Util.equals (spec §4.1), approximate equality
within a call-site tolerance. -/
def equals (n1 n2 tol : ℝ) : Prop := |n1 - n2| < tol

instance (n1 n2 tol : ℝ) : Decidable (equals n1 n2 tol) := by
  unfold equals; infer_instance

/-- Modelled from the spec: Util.between (spec §4.3 line-line, "lies within
both segments' bounding intervals (inclusive), per coordinate"). -/
def between (x a b : ℝ) : Prop := min a b ≤ x ∧ x ≤ max a b

instance (x a b : ℝ) : Decidable (between x a b) := by
  unfold between; infer_instance

/-- Modelled from the spec: Util.floorToDecimal, flooring to `n` decimal
places (spec §4.1 circle-circle: values "rounded to a fixed decimal
precision (6 decimal places)"; the source comment says "Use floored
values"). -/
def floorToDecimal (x : ℝ) (n : ℕ) : ℝ := (⌊x * 10 ^ n⌋ : ℝ) / 10 ^ n

/-- Modelled from the spec: Util.angleIsBetweenAngles (spec §4.1 arc-line,
"points whose polar angle lies within the arc's swept angular range (handling
wraparound)").  Membership of angle `a`, up to full turns, in the closed
angular interval swept from `s` to `e` (either sweep direction). -/
def angleIsBetweenAngles (a s e : ℝ) : Prop :=
  ∃ k : ℤ, min s e ≤ a + 2 * Real.pi * k ∧ a + 2 * Real.pi * k ≤ max s e

noncomputable instance (a s e : ℝ) : Decidable (angleIsBetweenAngles a s e) :=
  Classical.propDecidable _

end Util

namespace Coord2D

/-- Modelled from the spec: Coord2D.distanceTo, the Euclidean distance between
two coordinates. -/
def distanceTo (p q : Coord2D) : ℝ := Real.sqrt ((q.x - p.x) ^ 2 + (q.y - p.y) ^ 2)

/-- Modelled from the spec: Coord2D.angleTo, the polar angle of `q` as seen
from `p`. -/
def angleTo (p q : Coord2D) : ℝ := Complex.arg ⟨q.x - p.x, q.y - p.y⟩

/-- Modelled from the spec: Coord2D.isEqual, approximate equality of
coordinates (spec §3: "equality is approximate (epsilon-based)"). -/
def isEqual (p q : Coord2D) : Prop :=
  Util.equals p.x q.x Util.tolerance ∧ Util.equals p.y q.y Util.tolerance

instance (p q : Coord2D) : Decidable (isEqual p q) := by
  unfold isEqual; infer_instance

end Coord2D

/-- Line segment with two endpoints (Line.js, shapeName "line"). -/
structure Line where
  p1 : Coord2D
  p2 : Coord2D

/-- Full circle (Circle.js, shapeName "circle"). -/
structure Circle where
  center : Coord2D
  radius : ℝ

/-- Circular arc (CircularArc.js, shapeName "carc"): center, radius, start
angle and delta angle in radians. -/
structure Carc where
  center : Coord2D
  radius : ℝ
  sa : ℝ
  da : ℝ

/-- Base data of elliptical shapes (EllipticalShape.js, shapeName "ellipse"
for full ellipses): center, the two semi-axes, the x-axis rotation and the
optional list of general-conic coefficients [a,b,c,d,f,g]. -/
structure EllipticalShape where
  center : Coord2D
  rx : ℝ
  ry : ℝ
  xrot : ℝ
  coeffs : List ℝ

/-- Elliptical arc (EllipticalArc.js, shapeName "earc"): an elliptical shape
with start and delta angles. -/
structure Earc extends EllipticalShape where
  sa : ℝ
  da : ℝ

/-- Quadratic bezier curve with three control points (shapeName "bezier"). -/
structure Bezier where
  p1 : Coord2D
  p2 : Coord2D
  p3 : Coord2D

/-- Axis-aligned rectangle bounds. -/
structure Rect2D where
  left : ℝ
  right : ℝ
  top : ℝ
  bottom : ℝ

/-- Rectangle shape (shapeName "rect"); the source accesses its bounds as
`shape.rect.left` etc. -/
structure RectShape where
  rect : Rect2D

/-- View of a circular arc as a full circle, used where the source passes a
carc to a routine that only reads `center` and `radius`. -/
def Carc.toCircle (a : Carc) : Circle := ⟨a.center, a.radius⟩

namespace SnapPoints

/-- SnapPoints.insertFlag. -/
def insertFlag : ℕ := 0
/-- SnapPoints.deleteFlag. -/
def deleteFlag : ℕ := 1
/-- SnapPoints.bulkDeleteFlag. -/
def bulkDeleteFlag : ℕ := 2
/-- SnapPoints.nopFlag. -/
def nopFlag : ℕ := 3

/-- SnapPoints.isect_lineline: intersection of two segments via the 2x2
linear system of their standard-form equations. -/
def isect_lineline (l1 l2 : Line) : List Coord2D :=
  let a1 := l1.p2.y - l1.p1.y
  let b1 := l1.p1.x - l1.p2.x
  let c1 := a1 * l1.p1.x + b1 * l1.p1.y
  let a2 := l2.p2.y - l2.p1.y
  let b2 := l2.p1.x - l2.p2.x
  let c2 := a2 * l2.p1.x + b2 * l2.p1.y
  let det := a1 * b2 - a2 * b1
  if ¬ Util.equals det 0 Util.tolerance then
    let x0 := (b2 * c1 - b1 * c2) / det
    let y0 := (a1 * c2 - a2 * c1) / det
    if Util.between x0 l1.p1.x l1.p2.x ∧ Util.between y0 l1.p1.y l1.p2.y
        ∧ Util.between x0 l2.p1.x l2.p2.x ∧ Util.between y0 l2.p1.y l2.p2.y then
      [⟨x0, y0⟩]
    else []
  else []

/-- SnapPoints.isect_ellipseline: substitute the parametrised segment into the
general conic equation of the ellipse; the tolerance of the discriminant-zero
test is scaled dynamically with the ellipse's area.  Returns [] when the
ellipse carries no conic coefficients. -/
def isect_ellipseline (ellipse : EllipticalShape) (line : Line) : List Coord2D :=
  if 0 < ellipse.coeffs.length then
    let a := ellipse.coeffs.getD 0 0
    let b := ellipse.coeffs.getD 1 0
    let c := ellipse.coeffs.getD 2 0
    let d := ellipse.coeffs.getD 3 0
    let f := ellipse.coeffs.getD 4 0
    let g := ellipse.coeffs.getD 5 0
    let x1 := line.p1.x
    let y1 := line.p1.y
    let x2 := line.p2.x
    let y2 := line.p2.y
    let dx := x2 - x1
    let dy := y2 - y1
    let A := c*y2*y2 - 2*c*y1*y2 + 2*b*x2*y2 - 2*b*x1*y2 + c*y1*y1 - 2*b*x2*y1
      + 2*b*x1*y1 + a*x2*x2 - 2*a*x1*x2 + a*x1*x1
    let B := 2*c*y1*y2 + 2*b*x1*y2 + 2*f*y2 - 2*c*y1*y1 + 2*b*x2*y1 - 4*b*x1*y1
      - 2*f*y1 + 2*a*x1*x2 + 2*d*x2 - 2*a*x1*x1 - 2*d*x1
    let C := c*y1*y1 + 2*b*x1*y1 + 2*f*y1 + a*x1*x1 + 2*d*x1 + g
    let discriminant := B*B - 4*A*C
    let alpha : ℝ := 2.19e35
    let beta : ℝ := -5.673
    let area := ellipse.rx * ellipse.ry
    let tol := (alpha * area ^ beta) / 10e40
    if Util.equals discriminant 0 tol then
      let t := -B / (2*A)
      if 0 ≤ t ∧ t ≤ 1 then [⟨line.p1.x + t * dx, line.p1.y + t * dy⟩] else []
    else if 0 < discriminant then
      let rootd := Real.sqrt discriminant
      let t1 := (-B + rootd) / (2*A)
      let t2 := (-B - rootd) / (2*A)
      (if 0 ≤ t1 ∧ t1 ≤ 1 then [(⟨line.p1.x + t1 * dx, line.p1.y + t1 * dy⟩ : Coord2D)] else [])
        ++ (if 0 ≤ t2 ∧ t2 ≤ 1 then [(⟨line.p1.x + t2 * dx, line.p1.y + t2 * dy⟩ : Coord2D)] else [])
    else []
  else []

/-- Filter of candidate intersection points against one arc's angular extent,
shared by the arc-line and arc-arc solvers. -/
def filterOnArc (center : Coord2D) (sa extent : ℝ) : List Coord2D → List Coord2D
  | [] => []
  | s :: rest =>
    if Util.angleIsBetweenAngles (center.angleTo s) sa extent then
      s :: filterOnArc center sa extent rest
    else
      filterOnArc center sa extent rest

/-- SnapPoints.isect_earcline: ellipse-line solutions restricted to the arc's
angular extent. -/
def isect_earcline (arc : Earc) (line : Line) : List Coord2D :=
  filterOnArc arc.center arc.sa (arc.sa + arc.da) (isect_ellipseline arc.toEllipticalShape line)

/-- Quadratic coefficient `a` of the circle-line intersection equation. -/
def circlelineA (circle : Circle) (line : Line) : ℝ :=
  let dx1 := line.p2.x - line.p1.x
  let dy1 := line.p2.y - line.p1.y
  dx1 * dx1 + dy1 * dy1

/-- Linear coefficient `b` of the circle-line intersection equation. -/
def circlelineB (circle : Circle) (line : Line) : ℝ :=
  let dx1 := line.p2.x - line.p1.x
  let dy1 := line.p2.y - line.p1.y
  let dx2 := line.p1.x - circle.center.x
  let dy2 := line.p1.y - circle.center.y
  2 * (dx2 * dx1 + dy2 * dy1)

/-- Constant coefficient `c` of the circle-line intersection equation. -/
def circlelineC (circle : Circle) (line : Line) : ℝ :=
  let dx2 := line.p1.x - circle.center.x
  let dy2 := line.p1.y - circle.center.y
  (dx2 * dx2 + dy2 * dy2) - circle.radius * circle.radius

/-- Discriminant of the circle-line intersection quadratic. -/
def circlelineDisc (circle : Circle) (line : Line) : ℝ :=
  circlelineB circle line * circlelineB circle line
    - 4 * circlelineA circle line * circlelineC circle line

/-- Root of the circle-line quadratic in the tangency branch. -/
def circlelineT (circle : Circle) (line : Line) : ℝ :=
  -circlelineB circle line / (2 * circlelineA circle line)

/-- Larger-root candidate of the circle-line quadratic. -/
def circlelineT1 (circle : Circle) (line : Line) : ℝ :=
  (-circlelineB circle line + Real.sqrt (circlelineDisc circle line))
    / (2 * circlelineA circle line)

/-- Smaller-root candidate of the circle-line quadratic. -/
def circlelineT2 (circle : Circle) (line : Line) : ℝ :=
  (-circlelineB circle line - Real.sqrt (circlelineDisc circle line))
    / (2 * circlelineA circle line)

/-- SnapPoints.isect_circleline: substitute the parametrised segment into the
circle equation; tangency is detected with the call-site tolerance 1e-25, and
only roots with parameter t in [0,1] are accepted. -/
def isect_circleline (circle : Circle) (line : Line) : List Coord2D :=
  let dx1 := line.p2.x - line.p1.x
  let dy1 := line.p2.y - line.p1.y
  if Util.equals (circlelineDisc circle line) 0 1e-25 then
    let t := circlelineT circle line
    if 0 ≤ t ∧ t ≤ 1 then [⟨line.p1.x + t * dx1, line.p1.y + t * dy1⟩] else []
  else if 0 < circlelineDisc circle line then
    let t1 := circlelineT1 circle line
    let t2 := circlelineT2 circle line
    (if 0 ≤ t1 ∧ t1 ≤ 1 then [(⟨line.p1.x + t1 * dx1, line.p1.y + t1 * dy1⟩ : Coord2D)] else [])
      ++ (if 0 ≤ t2 ∧ t2 ≤ 1 then [(⟨line.p1.x + t2 * dx1, line.p1.y + t2 * dy1⟩ : Coord2D)] else [])
  else []

/-- SnapPoints.isect_carcline: circle-line solutions restricted to the arc's
angular extent. -/
def isect_carcline (arc : Carc) (line : Line) : List Coord2D :=
  filterOnArc arc.center arc.sa (arc.sa + arc.da) (isect_circleline arc.toCircle line)

/-- SnapPoints.isect_bezierline: quadratic-bezier versus segment; the roots of
the quadratic in t are mapped back through the Bezier blend and finally
checked against the segment's bounding box. -/
def isect_bezierline (bezier : Bezier) (line : Line) : List Coord2D :=
  let x0 := bezier.p1.x
  let y0 := bezier.p1.y
  let x1 := bezier.p2.x
  let y1 := bezier.p2.y
  let x2 := bezier.p3.x
  let y2 := bezier.p3.y
  let x3 := line.p1.x
  let y3 := line.p1.y
  let x4 := line.p2.x
  let y4 := line.p2.y
  let A := x2*y4 - 2*x1*y4 + x0*y4 - x2*y3 + 2*x1*y3 - x0*y3 - x4*y2 + x3*y2
    + 2*x4*y1 - 2*x3*y1 - x4*y0 + x3*y0
  let B := 2*x1*y4 - 2*x0*y4 - 2*x1*y3 + 2*x0*y3 - 2*x4*y1 + 2*x3*y1 + 2*x4*y0 - 2*x3*y0
  let C := -x3*y4 + x0*y4 + x4*y3 - x0*y3 - x4*y0 + x3*y0
  let discriminant := B*B - 4*A*C
  let solutions : List Coord2D :=
    if Util.equals discriminant 0 Util.tolerance then
      let t := -B / (2*A)
      if 0 ≤ t ∧ t ≤ 1 then
        let D := (1 - t)*(1 - t)
        let E := 2*(1 - t)*t
        let F := t*t
        [⟨D*x0 + E*x1 + F*x2, D*y0 + E*y1 + F*y2⟩]
      else []
    else if 0 < discriminant then
      let rootd := Real.sqrt discriminant
      let t1 := (-B + rootd) / (2*A)
      let t2 := (-B - rootd) / (2*A)
      (if 0 ≤ t1 ∧ t1 ≤ 1 then
        [(⟨(1 - t1)*(1 - t1)*x0 + 2*(1 - t1)*t1*x1 + t1*t1*x2,
           (1 - t1)*(1 - t1)*y0 + 2*(1 - t1)*t1*y1 + t1*t1*y2⟩ : Coord2D)]
      else [])
        ++ (if 0 ≤ t2 ∧ t2 ≤ 1 then
          [(⟨(1 - t2)*(1 - t2)*x0 + 2*(1 - t2)*t2*x1 + t2*t2*x2,
             (1 - t2)*(1 - t2)*y0 + 2*(1 - t2)*t2*y1 + t2*t2*y2⟩ : Coord2D)]
        else [])
    else []
  solutions.filter fun sol =>
    decide (Util.between sol.x line.p1.x line.p2.x ∧ Util.between sol.y line.p1.y line.p2.y)

/-- Center distance of two circular arcs, floored to 6 decimals as in the
source ("Use floored values as distanceTo will always return a truncated
float"). -/
def carcD (arc1 arc2 : Carc) : ℝ :=
  Util.floorToDecimal (arc1.center.distanceTo arc2.center) 6

/-- Radius sum of two circular arcs, floored to 6 decimals. -/
def carcRsum (arc1 arc2 : Carc) : ℝ :=
  Util.floorToDecimal (arc1.radius + arc2.radius) 6

/-- Absolute radius difference of two circular arcs, floored to 6 decimals. -/
def carcRdiff (arc1 arc2 : Carc) : ℝ :=
  Util.floorToDecimal |arc1.radius - arc2.radius| 6

/-- Candidate intersection points of the two supporting circles in
SnapPoints.isect_carccarc, before the angular-extent filter. -/
def carcSolutions (arc1 arc2 : Carc) : List Coord2D :=
  let d := carcD arc1 arc2
  let rsum := carcRsum arc1 arc2
  let rdiff := carcRdiff arc1 arc2
  let r1Squared := arc1.radius * arc1.radius
  let r2Squared := arc2.radius * arc2.radius
  let dx := arc2.center.x - arc1.center.x
  let dy := arc2.center.y - arc1.center.y
  if d < rsum ∧ d > rdiff then
    let a := (r1Squared - r2Squared + d * d) / (2 * d)
    let h := Real.sqrt (r1Squared - a * a)
    let aratio := a / d
    let hratio := h / d
    let newdx := hratio * dx
    let newdy := hratio * dy
    let p2x := arc1.center.x + aratio * dx
    let p2y := arc1.center.y + aratio * dy
    [⟨p2x + newdy, p2y - newdx⟩, ⟨p2x - newdy, p2y + newdx⟩]
  else if d ≠ 0 ∧ (Util.equals rsum d Util.tolerance ∨ Util.equals rdiff d Util.tolerance) then
    let rratio := arc1.radius / d
    [⟨arc1.center.x + rratio * dx, arc1.center.y + rratio * dy⟩]
  else []

/-- SnapPoints.isect_carccarc: two-circle intersection via the radical-line
construction, with the candidate points filtered against both arcs' angular
extents. -/
def isect_carccarc (arc1 arc2 : Carc) : List Coord2D :=
  filterOnArc arc2.center arc2.sa (arc2.sa + arc2.da)
    (filterOnArc arc1.center arc1.sa (arc1.sa + arc1.da) (carcSolutions arc1 arc2))

/-- Line.fromPoints. -/
def lineFromPoints (p q : Coord2D) : Line := ⟨p, q⟩

/-- Top boundary segment of a rectangle. -/
def rectTop (rect : RectShape) : Line :=
  lineFromPoints ⟨rect.rect.left, rect.rect.top⟩ ⟨rect.rect.right, rect.rect.top⟩

/-- Right boundary segment of a rectangle. -/
def rectRight (rect : RectShape) : Line :=
  lineFromPoints ⟨rect.rect.right, rect.rect.top⟩ ⟨rect.rect.right, rect.rect.bottom⟩

/-- Bottom boundary segment of a rectangle. -/
def rectBottom (rect : RectShape) : Line :=
  lineFromPoints ⟨rect.rect.right, rect.rect.bottom⟩ ⟨rect.rect.left, rect.rect.bottom⟩

/-- Left boundary segment of a rectangle. -/
def rectLeft (rect : RectShape) : Line :=
  lineFromPoints ⟨rect.rect.left, rect.rect.bottom⟩ ⟨rect.rect.left, rect.rect.top⟩

/-- SnapPoints.isect_linerect: union of the line-line intersections with the
four boundary segments, in source order. -/
def isect_linerect (line : Line) (rect : RectShape) : List Coord2D :=
  isect_lineline line (rectTop rect) ++ isect_lineline line (rectRight rect)
    ++ isect_lineline line (rectBottom rect) ++ isect_lineline line (rectLeft rect)

/-- SnapPoints.isect_carcrect. -/
def isect_carcrect (carc : Carc) (rect : RectShape) : List Coord2D :=
  isect_carcline carc (rectTop rect) ++ isect_carcline carc (rectRight rect)
    ++ isect_carcline carc (rectBottom rect) ++ isect_carcline carc (rectLeft rect)

/-- SnapPoints.isect_earcrect. -/
def isect_earcrect (earc : Earc) (rect : RectShape) : List Coord2D :=
  isect_earcline earc (rectTop rect) ++ isect_earcline earc (rectRight rect)
    ++ isect_earcline earc (rectBottom rect) ++ isect_earcline earc (rectLeft rect)

/-- SnapPoints.isect_ellipserect. -/
def isect_ellipserect (ellipse : EllipticalShape) (rect : RectShape) : List Coord2D :=
  isect_ellipseline ellipse (rectTop rect) ++ isect_ellipseline ellipse (rectRight rect)
    ++ isect_ellipseline ellipse (rectBottom rect) ++ isect_ellipseline ellipse (rectLeft rect)

/-- SnapPoints.isect_bezierrect. -/
def isect_bezierrect (bezier : Bezier) (rect : RectShape) : List Coord2D :=
  isect_bezierline bezier (rectTop rect) ++ isect_bezierline bezier (rectRight rect)
    ++ isect_bezierline bezier (rectBottom rect) ++ isect_bezierline bezier (rectLeft rect)

/-- SnapPoints.isect_circlerect. -/
def isect_circlerect (circle : Circle) (rect : RectShape) : List Coord2D :=
  isect_circleline circle (rectTop rect) ++ isect_circleline circle (rectRight rect)
    ++ isect_circleline circle (rectBottom rect) ++ isect_circleline circle (rectLeft rect)

end SnapPoints

/-- Closed set of shape variants handled by the snap-point engine, tagged by
the stable type names of the source classes (spec §3 "Shape identity"). -/
inductive Shape where
  | line (l : Line)
  | circle (c : Circle)
  | carc (a : Carc)
  | ellipse (e : EllipticalShape)
  | earc (a : Earc)
  | bezier (b : Bezier)
  | rect (r : RectShape)

/-- Stable type tag of each shape, matching the shapeName constants of the
source classes. -/
def Shape.shapeName : Shape → String
  | .line _ => "line"
  | .circle _ => "circle"
  | .carc _ => "carc"
  | .ellipse _ => "ellipse"
  | .earc _ => "earc"
  | .bezier _ => "bezier"
  | .rect _ => "rect"

namespace SnapPoints

/-- Wrapper of isect_lineline over the shape variant type.  The fallback
cases of each wrapper are unreachable through the name-keyed dispatch, which
only calls a wrapper on the variants named in its key. -/
def wrap_lineline : Shape → Shape → List Coord2D
  | .line l1, .line l2 => isect_lineline l1 l2
  | _, _ => []

/-- Wrapper of isect_ellipseline over the shape variant type. -/
def wrap_ellipseline : Shape → Shape → List Coord2D
  | .ellipse e, .line l => isect_ellipseline e l
  | _, _ => []

/-- Wrapper of isect_earcline over the shape variant type. -/
def wrap_earcline : Shape → Shape → List Coord2D
  | .earc a, .line l => isect_earcline a l
  | _, _ => []

/-- Wrapper of isect_circleline over the shape variant type. -/
def wrap_circleline : Shape → Shape → List Coord2D
  | .circle c, .line l => isect_circleline c l
  | _, _ => []

/-- Wrapper of isect_carcline over the shape variant type. -/
def wrap_carcline : Shape → Shape → List Coord2D
  | .carc a, .line l => isect_carcline a l
  | _, _ => []

/-- Wrapper of isect_bezierline over the shape variant type. -/
def wrap_bezierline : Shape → Shape → List Coord2D
  | .bezier b, .line l => isect_bezierline b l
  | _, _ => []

/-- Wrapper of isect_carccarc over the shape variant type. -/
def wrap_carccarc : Shape → Shape → List Coord2D
  | .carc a1, .carc a2 => isect_carccarc a1 a2
  | _, _ => []

/-- Wrapper of isect_linerect over the shape variant type. -/
def wrap_linerect : Shape → Shape → List Coord2D
  | .line l, .rect r => isect_linerect l r
  | _, _ => []

/-- Wrapper of isect_carcrect over the shape variant type. -/
def wrap_carcrect : Shape → Shape → List Coord2D
  | .carc a, .rect r => isect_carcrect a r
  | _, _ => []

/-- Wrapper of isect_earcrect over the shape variant type. -/
def wrap_earcrect : Shape → Shape → List Coord2D
  | .earc a, .rect r => isect_earcrect a r
  | _, _ => []

/-- Wrapper of isect_ellipserect over the shape variant type. -/
def wrap_ellipserect : Shape → Shape → List Coord2D
  | .ellipse e, .rect r => isect_ellipserect e r
  | _, _ => []

/-- Wrapper of isect_bezierrect over the shape variant type. -/
def wrap_bezierrect : Shape → Shape → List Coord2D
  | .bezier b, .rect r => isect_bezierrect b r
  | _, _ => []

/-- Wrapper of isect_circlerect over the shape variant type. -/
def wrap_circlerect : Shape → Shape → List Coord2D
  | .circle c, .rect r => isect_circlerect c r
  | _, _ => []

/-- JavaScript string comparison `<` as used by the dispatch of
testIntersections: lexicographic by character code, modelled on the
character lists of the two names. -/
def strLt (s t : String) : Prop := s.data < t.data

instance (s t : String) : Decidable (strLt s t) := by
  unfold strLt; infer_instance

/-- Lookup of the registered solver for a concatenated pair of shape names,
the embedding of the dynamic lookup `SnapPoints["isect_" + name1 + name2]`.
Exactly the thirteen isect_ functions of the source are registered; every
other key yields none. -/
def solverTable (funcName : String) : Option (Shape → Shape → List Coord2D) :=
  if funcName = "lineline" then some wrap_lineline
  else if funcName = "ellipseline" then some wrap_ellipseline
  else if funcName = "earcline" then some wrap_earcline
  else if funcName = "circleline" then some wrap_circleline
  else if funcName = "carcline" then some wrap_carcline
  else if funcName = "bezierline" then some wrap_bezierline
  else if funcName = "carccarc" then some wrap_carccarc
  else if funcName = "linerect" then some wrap_linerect
  else if funcName = "carcrect" then some wrap_carcrect
  else if funcName = "earcrect" then some wrap_earcrect
  else if funcName = "ellipserect" then some wrap_ellipserect
  else if funcName = "bezierrect" then some wrap_bezierrect
  else if funcName = "circlerect" then some wrap_circlerect
  else none

/-- Per-candidate solver dispatch of SnapPoints.testIntersections (lines
82-92): the solver is keyed by the alphabetically smaller shape name first
and invoked with the arguments in that order; a missing solver contributes no
intersections. -/
def dispatchPair (shape newShape : Shape) : List Coord2D :=
  if strLt shape.shapeName newShape.shapeName then
    match solverTable (shape.shapeName ++ newShape.shapeName) with
    | some f => f shape newShape
    | none => []
  else
    match solverTable (newShape.shapeName ++ shape.shapeName) with
    | some f => f newShape shape
    | none => []

end SnapPoints

namespace SpatialHash

/-- Modelled from the spec: the grid cell of a coordinate (spec §3,
"integer grid-cell coordinates (floor(x/bucketWidth), floor(y/bucketWidth))").
SpatialHash.js is not under src/. -/
def cellOf (w : ℝ) (p : Coord2D) : ℤ × ℤ := (⌊p.x / w⌋, ⌊p.y / w⌋)

/-- Modelled from the spec: SpatialHash insert appends the point to the
bucket of its cell (spec §4.2).  The hash is represented as the flat list of
stored points in insertion order; bucket membership is recovered from a
point's coordinates through cellOf. -/
def insert (ps : List Coord2D) (p : Coord2D) : List Coord2D := ps ++ [p]

/-- Modelled from the spec: removal of one point — compute its cell and
delete the first approximately-equal entry from that cell's bucket, silently
ignoring points not found (spec §4.2). -/
def removeFirst (w : ℝ) : List Coord2D → Coord2D → List Coord2D
  | [], _ => []
  | q :: rest, p =>
    if cellOf w q = cellOf w p ∧ q.isEqual p then rest
    else q :: removeFirst w rest p

/-- Modelled from the spec: SpatialHash.remove takes a batch of points and
removes each in turn (spec §4.2). -/
def remove (w : ℝ) (ps : List Coord2D) (batch : List Coord2D) : List Coord2D :=
  batch.foldl (removeFirst w) ps

/-- Modelled from the spec: SpatialHash.search returns every stored point of
the cells overlapped by the bounding box of the query disk — a candidate
superset, the caller does the precise distance filter (spec §4.2). -/
def search (w : ℝ) (ps : List Coord2D) (c : Coord2D) (r : ℝ) : List Coord2D :=
  match ps with
  | [] => []
  | q :: rest =>
    if (⌊(c.x - r) / w⌋ ≤ ⌊q.x / w⌋ ∧ ⌊q.x / w⌋ ≤ ⌊(c.x + r) / w⌋)
        ∧ (⌊(c.y - r) / w⌋ ≤ ⌊q.y / w⌋ ∧ ⌊q.y / w⌋ ≤ ⌊(c.y + r) / w⌋) then
      q :: search w rest c r
    else search w rest c r

end SpatialHash

/-- State of the snap-point manager (SnapPoints.js constructor): the spatial
index of live intersection points, the pending-deletion list, and the snap
radius scale.  The base snap radius (the external constant Alberti.snapRadius)
and the bucket width (derived externally from the snap radius and the minimum
zoom factor) are carried as explicit configuration fields, per spec §6. -/
structure SnapPointsState where
  snapRadius : ℝ
  bucketWidth : ℝ
  points : List Coord2D
  deletedPoints : List Coord2D
  snapRadiusScale : ℝ

namespace SnapPoints

/-- Effect of one candidate's intersections on the manager state, the
embedding of the switch on the action flag inside testIntersections (lines
99-117): insert adds every point to the index, delete removes each point from
the index one batch-of-one at a time, bulk-delete appends every point to the
pending-deletion list, and any other action leaves the state unchanged. -/
def applyAction (sp : SnapPointsState) (action : ℕ) (intersections : List Coord2D) :
    SnapPointsState :=
  if action = insertFlag then
    { sp with points := intersections.foldl SpatialHash.insert sp.points }
  else if action = deleteFlag then
    { sp with points :=
        intersections.foldl (fun ps p => SpatialHash.remove sp.bucketWidth ps [p]) sp.points }
  else if action = bulkDeleteFlag then
    { sp with deletedPoints := sp.deletedPoints ++ intersections }
  else sp

/-- Candidate loop of SnapPoints.testIntersections: null entries are skipped;
for each present candidate the dispatched solver runs, intersecting
candidates and all points are collected, and the action is applied to the
state. -/
def tiGo (newShape : Shape) (action : ℕ) :
    List (Option Shape) → SnapPointsState → (List Shape × List Coord2D) × SnapPointsState
  | [], sp => (([], []), sp)
  | none :: rest, sp => tiGo newShape action rest sp
  | some shape :: rest, sp =>
    let intersections := dispatchPair shape newShape
    let res := tiGo newShape action rest (applyAction sp action intersections)
    ((if 0 < intersections.length then shape :: res.1.1 else res.1.1,
      intersections ++ res.1.2), res.2)

/-- SnapPoints.prototype.testIntersections: test newShape against every shape
of shapeArray and take the appropriate action; returns the pair of
intersecting shapes and of all intersection points, together with the updated
manager state. -/
def testIntersections (sp : SnapPointsState) (newShape : Shape)
    (shapeArray : List (Option Shape)) (action : ℕ) :
    (List Shape × List Coord2D) × SnapPointsState :=
  tiGo newShape action shapeArray sp

/-- Exclusion guard of the nearest-neighbor loop:
`!excludeCoord || !nearCoords[i].isEqual(excludeCoord)`. -/
def keepCand (excludeCoord : Option Coord2D) (q : Coord2D) : Prop :=
  match excludeCoord with
  | none => True
  | some e => ¬ q.isEqual e

instance (excludeCoord : Option Coord2D) (q : Coord2D) : Decidable (keepCand excludeCoord q) :=
  match excludeCoord with
  | none => isTrue trivial
  | some e => inferInstanceAs (Decidable (¬ q.isEqual e))

/-- Candidates surviving the exclusion guard, in encounter order. -/
def candFilter (excludeCoord : Option Coord2D) : List Coord2D → List Coord2D
  | [] => []
  | q :: rest =>
    if keepCand excludeCoord q then q :: candFilter excludeCoord rest
    else candFilter excludeCoord rest

/-- Scan loop of SnapPoints.prototype.getNearestNeighbor: the best candidate
so far and its distance; a missing accumulator stands for the initial
`bestDistance = Infinity`, which every finite distance beats. -/
def nnGo (coord : Coord2D) (excludeCoord : Option Coord2D) :
    List Coord2D → Option (Coord2D × ℝ) → Option (Coord2D × ℝ)
  | [], best => best
  | q :: rest, best =>
    if keepCand excludeCoord q then
      match best with
      | none => nnGo coord excludeCoord rest (some (q, coord.distanceTo q))
      | some pr =>
        if coord.distanceTo q < pr.2 then
          nnGo coord excludeCoord rest (some (q, coord.distanceTo q))
        else nnGo coord excludeCoord rest (some pr)
    else nnGo coord excludeCoord rest best

/-- SnapPoints.prototype.getNearestNeighbor: search the index within radius
snapRadius / snapRadiusScale around coord and return (a clone of) the closest
candidate not matching the optional exclude coordinate, or none. -/
def getNearestNeighbor (sp : SnapPointsState) (coord : Coord2D)
    (excludeCoord : Option Coord2D) : Option Coord2D :=
  let qradius := sp.snapRadius / sp.snapRadiusScale
  let nearCoords := SpatialHash.search sp.bucketWidth sp.points coord qradius
  (nnGo coord excludeCoord nearCoords none).map Prod.fst

/-- Candidate set of a getNearestNeighbor call after the exclusion guard,
used to state its specification. -/
def nnCandidates (sp : SnapPointsState) (coord : Coord2D)
    (excludeCoord : Option Coord2D) : List Coord2D :=
  candFilter excludeCoord
    (SpatialHash.search sp.bucketWidth sp.points coord (sp.snapRadius / sp.snapRadiusScale))

/-- SnapPoints.prototype.flush: remove every point of the pending-deletion
list from the index in one batch, then clear the list. -/
def flush (sp : SnapPointsState) : SnapPointsState :=
  { sp with
    points := SpatialHash.remove sp.bucketWidth sp.points sp.deletedPoints
    deletedPoints := [] }

/-- SnapPoints.prototype.setSnapRadiusScale. -/
def setSnapRadiusScale (sp : SnapPointsState) (scale : ℝ) : SnapPointsState :=
  { sp with snapRadiusScale := scale }

end SnapPoints

namespace EllipticalShape

/-- Linear coefficient Q of the tangent-through-point derivation of
EllipticalShape.getTangentsThrough; the source flags Q = 0 as an unhandled
special case. -/
def tanQ (e : EllipticalShape) (p : Coord2D) : ℝ :=
  e.coeffs.getD 1 0 * p.x + e.coeffs.getD 2 0 * p.y + e.coeffs.getD 4 0

/-- Coefficient P of the tangent-through-point derivation. -/
def tanP (e : EllipticalShape) (p : Coord2D) : ℝ :=
  e.coeffs.getD 0 0 * p.x + e.coeffs.getD 1 0 * p.y + e.coeffs.getD 3 0

/-- Coefficient R of the tangent-through-point derivation. -/
def tanR (e : EllipticalShape) (p : Coord2D) : ℝ :=
  e.coeffs.getD 3 0 * p.x + e.coeffs.getD 4 0 * p.y + e.coeffs.getD 5 0

/-- Quadratic coefficient A of the reduced tangency equation. -/
def tanA (e : EllipticalShape) (p : Coord2D) : ℝ :=
  e.coeffs.getD 0 0 - (2 * e.coeffs.getD 1 0 * tanP e p) / tanQ e p
    + (e.coeffs.getD 2 0 * tanP e p * tanP e p) / (tanQ e p * tanQ e p)

/-- Linear coefficient B of the reduced tangency equation. -/
def tanB (e : EllipticalShape) (p : Coord2D) : ℝ :=
  2 * (e.coeffs.getD 3 0
    - (e.coeffs.getD 1 0 * tanR e p + e.coeffs.getD 4 0 * tanP e p) / tanQ e p
    + (e.coeffs.getD 2 0 * tanP e p * tanR e p) / (tanQ e p * tanQ e p))

/-- Constant coefficient C of the reduced tangency equation. -/
def tanC (e : EllipticalShape) (p : Coord2D) : ℝ :=
  e.coeffs.getD 5 0 - (2 * e.coeffs.getD 4 0 * tanR e p) / tanQ e p
    + (e.coeffs.getD 2 0 * tanR e p * tanR e p) / (tanQ e p * tanQ e p)

/-- Discriminant of the reduced tangency equation. -/
def tanDisc (e : EllipticalShape) (p : Coord2D) : ℝ :=
  tanB e p * tanB e p - 4 * tanA e p * tanC e p

/-- EllipticalShape.prototype.getTangentsThrough: the points of tangency of
the lines through p, from the conic coefficients; a discriminant near zero
(within 1e-25) degenerates to the point p itself, a negative discriminant
yields no tangents. -/
def getTangentsThrough (e : EllipticalShape) (p : Coord2D) : List Coord2D :=
  if Util.equals (tanDisc e p) 0 1e-25 then
    [⟨p.x, p.y⟩]
  else if 0 < tanDisc e p then
    let rootd := Real.sqrt (tanDisc e p)
    let x1 := (-tanB e p + rootd) / (2 * tanA e p)
    let x2 := (-tanB e p - rootd) / (2 * tanA e p)
    let y1 := -(tanP e p * x1 + tanR e p) / tanQ e p
    let y2 := -(tanP e p * x2 + tanR e p) / tanQ e p
    [⟨x1, y1⟩, ⟨x2, y2⟩]
  else []

end EllipticalShape

/-- Full circle represented as a circular arc: the delta angle spans a whole
turn, so the sweep covers every polar angle. -/
def Carc.IsFullCircle (a : Carc) : Prop := a.da = 2 * Real.pi

/-! ## Lemmas about the manager state operations -/

namespace SnapPoints

lemma applyAction_nil (sp : SnapPointsState) (action : ℕ) : applyAction sp action [] = sp := by
  unfold applyAction
  split
  · rfl
  · split
    · simp [SpatialHash.remove]
    · split <;> simp

lemma applyAction_nop (sp : SnapPointsState) (ints : List Coord2D) :
    applyAction sp nopFlag ints = sp := by
  simp [applyAction, nopFlag, insertFlag, deleteFlag, bulkDeleteFlag]

lemma applyAction_insert (sp : SnapPointsState) (ints : List Coord2D) :
    applyAction sp insertFlag ints =
      { sp with points := ints.foldl SpatialHash.insert sp.points } := by
  simp [applyAction, insertFlag]

lemma applyAction_delete (sp : SnapPointsState) (ints : List Coord2D) :
    applyAction sp deleteFlag ints =
      { sp with points :=
          ints.foldl (fun ps p => SpatialHash.remove sp.bucketWidth ps [p]) sp.points } := by
  simp [applyAction, deleteFlag, insertFlag]

lemma applyAction_bulkDelete (sp : SnapPointsState) (ints : List Coord2D) :
    applyAction sp bulkDeleteFlag ints =
      { sp with deletedPoints := sp.deletedPoints ++ ints } := by
  simp [applyAction, bulkDeleteFlag, insertFlag, deleteFlag]

lemma tiGo_fst_congr (n : Shape) (a a' : ℕ) :
    ∀ (l : List (Option Shape)) (sp sp' : SnapPointsState),
      (tiGo n a l sp).1 = (tiGo n a' l sp').1 := by
  intro l
  induction l with
  | nil => intro sp sp'; rfl
  | cons h t ih =>
    intro sp sp'
    cases h with
    | none => exact ih sp sp'
    | some s =>
      simp only [tiGo]
      rw [ih (applyAction sp a (dispatchPair s n)) (applyAction sp' a' (dispatchPair s n))]

lemma tiGo_nop_state (n : Shape) :
    ∀ (l : List (Option Shape)) (sp : SnapPointsState), (tiGo n nopFlag l sp).2 = sp := by
  intro l
  induction l with
  | nil => intro sp; rfl
  | cons h t ih =>
    intro sp
    cases h with
    | none => exact ih sp
    | some s => simp only [tiGo]; rw [ih, applyAction_nop]

lemma tiGo_insert_state (n : Shape) :
    ∀ (l : List (Option Shape)) (sp : SnapPointsState),
      (tiGo n insertFlag l sp).2 =
        { sp with points := (((tiGo n insertFlag l sp).1.2).foldl SpatialHash.insert sp.points) } := by
  intro l
  induction l with
  | nil => intro sp; rfl
  | cons h t ih =>
    intro sp
    cases h with
    | none => exact ih sp
    | some s =>
      simp only [tiGo, applyAction_insert]
      rw [ih]
      simp [List.foldl_append]

lemma tiGo_delete_points_aux (w : ℝ) :
    ∀ (l1 l2 : List Coord2D) (ps : List Coord2D),
      l2.foldl (fun ps p => SpatialHash.remove w ps [p])
          (l1.foldl (fun ps p => SpatialHash.remove w ps [p]) ps)
        = (l1 ++ l2).foldl (fun ps p => SpatialHash.remove w ps [p]) ps := by
  intro l1 l2 ps
  rw [List.foldl_append]

lemma tiGo_delete_state (n : Shape) :
    ∀ (l : List (Option Shape)) (sp : SnapPointsState),
      (tiGo n deleteFlag l sp).2 =
        { sp with points := (((tiGo n deleteFlag l sp).1.2).foldl
            (fun ps p => SpatialHash.remove sp.bucketWidth ps [p]) sp.points) } := by
  intro l
  induction l with
  | nil => intro sp; rfl
  | cons h t ih =>
    intro sp
    cases h with
    | none => exact ih sp
    | some s =>
      simp only [tiGo, applyAction_delete]
      rw [ih]
      simp [List.foldl_append]

lemma tiGo_bulkDelete_state (n : Shape) :
    ∀ (l : List (Option Shape)) (sp : SnapPointsState),
      (tiGo n bulkDeleteFlag l sp).2 =
        { sp with deletedPoints := sp.deletedPoints ++ (tiGo n bulkDeleteFlag l sp).1.2 } := by
  intro l
  induction l with
  | nil => intro sp; simp [tiGo]
  | cons h t ih =>
    intro sp
    cases h with
    | none => exact ih sp
    | some s =>
      simp only [tiGo, applyAction_bulkDelete]
      rw [ih]
      simp [List.append_assoc]

lemma nnGo_some_ne_none (coord : Coord2D) (exc : Option Coord2D) :
    ∀ (l : List Coord2D) (pr : Coord2D × ℝ), nnGo coord exc l (some pr) ≠ none := by
  intro l
  induction l with
  | nil => intro pr h; exact Option.noConfusion h
  | cons q rest ih =>
    intro pr
    by_cases hk : keepCand exc q
    · simp only [nnGo, if_pos hk]
      by_cases hlt : coord.distanceTo q < pr.2
      · rw [if_pos hlt]; exact ih _
      · rw [if_neg hlt]; exact ih _
    · simp only [nnGo, if_neg hk]
      exact ih _

lemma nnGo_none_iff (coord : Coord2D) (exc : Option Coord2D) :
    ∀ l : List Coord2D, nnGo coord exc l none = none ↔ candFilter exc l = [] := by
  intro l
  induction l with
  | nil => simp [nnGo, candFilter]
  | cons q rest ih =>
    by_cases hk : keepCand exc q
    · simp only [nnGo, candFilter, if_pos hk]
      constructor
      · intro hh
        exact absurd hh (nnGo_some_ne_none coord exc rest _)
      · intro h
        exact absurd h (List.cons_ne_nil q _)
    · simp only [nnGo, candFilter, if_neg hk]
      exact ih

lemma nnGo_min (coord : Coord2D) (exc : Option Coord2D) :
    ∀ (l : List Coord2D) (best : Option (Coord2D × ℝ)) (c : Coord2D) (dc : ℝ),
      nnGo coord exc l best = some (c, dc) →
        (best = some (c, dc) ∨ (c ∈ candFilter exc l ∧ dc = coord.distanceTo c)) ∧
        (∀ q ∈ candFilter exc l, dc ≤ coord.distanceTo q) ∧
        (∀ b bd, best = some (b, bd) → dc ≤ bd) := by
  intro l
  induction l with
  | nil =>
    intro best c dc h
    refine ⟨Or.inl h, by simp [candFilter], ?_⟩
    intro b bd hb
    rw [hb] at h
    cases h
    exact le_refl _
  | cons q rest ih =>
    intro best c dc h
    by_cases hk : keepCand exc q
    · simp only [nnGo, if_pos hk] at h
      simp only [candFilter, if_pos hk]
      cases best with
      | none =>
        obtain ⟨h1, h2, h3⟩ := ih (some (q, coord.distanceTo q)) c dc h
        refine ⟨?_, ?_, ?_⟩
        · rcases h1 with h1 | h1
          · cases h1
            exact Or.inr ⟨List.mem_cons_self _ _, rfl⟩
          · exact Or.inr ⟨List.mem_cons_of_mem _ h1.1, h1.2⟩
        · intro p hp
          rcases List.mem_cons.mp hp with rfl | hp
          · exact h3 p (coord.distanceTo p) rfl
          · exact h2 p hp
        · intro b bd hb
          exact Option.noConfusion hb
      | some pr =>
        obtain ⟨b0, bd0⟩ := pr
        dsimp only at h
        by_cases hlt : coord.distanceTo q < bd0
        · rw [if_pos hlt] at h
          obtain ⟨h1, h2, h3⟩ := ih (some (q, coord.distanceTo q)) c dc h
          have hdq : dc ≤ coord.distanceTo q := h3 q (coord.distanceTo q) rfl
          refine ⟨?_, ?_, ?_⟩
          · rcases h1 with h1 | h1
            · cases h1
              exact Or.inr ⟨List.mem_cons_self _ _, rfl⟩
            · exact Or.inr ⟨List.mem_cons_of_mem _ h1.1, h1.2⟩
          · intro p hp
            rcases List.mem_cons.mp hp with rfl | hp
            · exact hdq
            · exact h2 p hp
          · intro b bd hb
            cases hb
            exact le_of_lt (lt_of_le_of_lt hdq hlt)
        · rw [if_neg hlt] at h
          obtain ⟨h1, h2, h3⟩ := ih (some (b0, bd0)) c dc h
          have hbd : dc ≤ bd0 := h3 b0 bd0 rfl
          refine ⟨?_, ?_, ?_⟩
          · rcases h1 with h1 | h1
            · exact Or.inl h1
            · exact Or.inr ⟨List.mem_cons_of_mem _ h1.1, h1.2⟩
          · intro p hp
            rcases List.mem_cons.mp hp with rfl | hp
            · exact le_trans hbd (not_lt.mp hlt)
            · exact h2 p hp
          · intro b bd hb
            cases hb
            exact hbd
    · simp only [nnGo, if_neg hk] at h
      simp only [candFilter, if_neg hk]
      exact ih best c dc h

lemma floor_div_le_floor_div {w a b : ℝ} (hw : 0 < w) (h : a ≤ b) : ⌊a / w⌋ ≤ ⌊b / w⌋ := by
  apply Int.floor_le_floor
  gcongr

lemma dispatchPair_noSolver (s n : Shape)
    (h1 : solverTable (s.shapeName ++ n.shapeName) = none)
    (h2 : solverTable (n.shapeName ++ s.shapeName) = none) :
    dispatchPair s n = [] := by
  unfold dispatchPair
  split
  · rw [h1]
  · rw [h2]

end SnapPoints

/-! ## Claim theorems: degenerate inputs, action frame, flush -/

open SnapPoints in
/-- C6.  For every ellipse whose conic-coefficient list is empty and every
line segment, the ellipse-line intersection solver returns the empty sequence
(the embedding is a total function, so no error can be raised). -/
theorem isect_ellipseline_empty_coeffs (e : EllipticalShape) (l : Line)
    (h : e.coeffs = []) : SnapPoints.isect_ellipseline e l = [] := by
  simp [SnapPoints.isect_ellipseline, h]

/-- Witness for C6: a concrete coefficient-free ellipse against a concrete
segment yields no intersections. -/
theorem isect_ellipseline_empty_coeffs_witness :
    SnapPoints.isect_ellipseline ⟨⟨0, 0⟩, 1, 1, 0, []⟩ ⟨⟨0, 0⟩, ⟨1, 0⟩⟩ = [] :=
  isect_ellipseline_empty_coeffs _ _ rfl

/-- C7.  testIntersections never raises on degenerate inputs: the embedding
is total, a null candidate entry is skipped contributing nothing to the
result or the state, and a candidate whose shape pair has no registered
solver likewise contributes nothing. -/
theorem testIntersections_degenerate :
    (∀ (sp : SnapPointsState) (n : Shape) (rest : List (Option Shape)) (a : ℕ),
      SnapPoints.testIntersections sp n (none :: rest) a
        = SnapPoints.testIntersections sp n rest a) ∧
    (∀ (sp : SnapPointsState) (n s : Shape) (rest : List (Option Shape)) (a : ℕ),
      SnapPoints.solverTable (s.shapeName ++ n.shapeName) = none →
      SnapPoints.solverTable (n.shapeName ++ s.shapeName) = none →
      SnapPoints.testIntersections sp n (some s :: rest) a
        = SnapPoints.testIntersections sp n rest a) := by
  constructor
  · intro sp n rest a
    rfl
  · intro sp n s rest a h1 h2
    unfold SnapPoints.testIntersections
    show SnapPoints.tiGo n a (some s :: rest) sp = _
    simp [SnapPoints.tiGo, SnapPoints.dispatchPair_noSolver s n h1 h2,
      SnapPoints.applyAction_nil]

/-- Witness for C7: a circular-arc candidate against an elliptical-arc query
has no registered solver ("carcearc"/"earccarc" are not in the table), and the
call behaves exactly as with the candidate absent. -/
theorem testIntersections_degenerate_witness :
    SnapPoints.testIntersections ⟨1, 1, [], [], 1⟩ (Shape.earc ⟨⟨⟨0, 0⟩, 1, 1, 0, []⟩, 0, 0⟩)
        [some (Shape.carc ⟨⟨0, 0⟩, 1, 0, 0⟩)] 0
      = SnapPoints.testIntersections ⟨1, 1, [], [], 1⟩
          (Shape.earc ⟨⟨⟨0, 0⟩, 1, 1, 0, []⟩, 0, 0⟩) [] 0 :=
  testIntersections_degenerate.2 ⟨1, 1, [], [], 1⟩ _ _ [] 0 rfl rfl

/-- C8.  flush removes every pending point from the index and clears the
pending-deletion list, so an immediately repeated flush is a no-op: the
second call finds an empty pending list and changes nothing. -/
theorem flush_idempotent (sp : SnapPointsState) :
    (SnapPoints.flush sp).deletedPoints = [] ∧
      SnapPoints.flush (SnapPoints.flush sp) = SnapPoints.flush sp := by
  constructor
  · rfl
  · simp [SnapPoints.flush, SpatialHash.remove]

/-- C1.  testIntersections returns the same (intersecting shapes, all
intersection points) pair for every action flag (and independently of the
index state), and its effect on the manager state is exactly the one of the
action: no-op leaves the state unchanged, insert adds every resulting point
to the index, delete removes every resulting point from the index, and
bulk-delete appends every resulting point to the pending-deletion list
without touching the index. -/
theorem testIntersections_actions (sp : SnapPointsState) (n : Shape)
    (l : List (Option Shape)) :
    (∀ (a : ℕ) (sp' : SnapPointsState),
      (SnapPoints.testIntersections sp n l a).1
        = (SnapPoints.testIntersections sp' n l SnapPoints.nopFlag).1) ∧
    (SnapPoints.testIntersections sp n l SnapPoints.nopFlag).2 = sp ∧
    (SnapPoints.testIntersections sp n l SnapPoints.insertFlag).2 =
      { sp with points :=
          (((SnapPoints.testIntersections sp n l SnapPoints.nopFlag).1.2).foldl
            SpatialHash.insert sp.points) } ∧
    (SnapPoints.testIntersections sp n l SnapPoints.deleteFlag).2 =
      { sp with points :=
          (((SnapPoints.testIntersections sp n l SnapPoints.nopFlag).1.2).foldl
            (fun ps p => SpatialHash.remove sp.bucketWidth ps [p]) sp.points) } ∧
    (SnapPoints.testIntersections sp n l SnapPoints.bulkDeleteFlag).2 =
      { sp with deletedPoints :=
          sp.deletedPoints ++ (SnapPoints.testIntersections sp n l SnapPoints.nopFlag).1.2 } := by
  refine ⟨fun a sp' => SnapPoints.tiGo_fst_congr n a SnapPoints.nopFlag l sp sp',
    SnapPoints.tiGo_nop_state n l sp, ?_, ?_, ?_⟩
  · rw [SnapPoints.testIntersections, SnapPoints.tiGo_insert_state n l sp]
    have := SnapPoints.tiGo_fst_congr n SnapPoints.insertFlag SnapPoints.nopFlag l sp sp
    rw [SnapPoints.testIntersections, ← this]
  · rw [SnapPoints.testIntersections, SnapPoints.tiGo_delete_state n l sp]
    have := SnapPoints.tiGo_fst_congr n SnapPoints.deleteFlag SnapPoints.nopFlag l sp sp
    rw [SnapPoints.testIntersections, ← this]
  · rw [SnapPoints.testIntersections, SnapPoints.tiGo_bulkDelete_state n l sp]
    have := SnapPoints.tiGo_fst_congr n SnapPoints.bulkDeleteFlag SnapPoints.nopFlag l sp sp
    rw [SnapPoints.testIntersections, ← this]

/-! ## Nearest-neighbor query -/

/-- C2 (amended).  getNearestNeighbor queries the index within radius
snapRadius / snapRadiusScale around the query point; among the returned
candidates it excludes every candidate matching the optional exclude
coordinate, and returns a candidate closest to the query point by Euclidean
distance, or none when the candidate set is empty.  In particular, against an
index containing exactly (0,0) and (5,5), the query for point (1,1) with
radius 2 returns (0,0), for every positive bucket width. -/
theorem getNearestNeighbor_spec :
    (∀ (sp : SnapPointsState) (coord : Coord2D) (exc : Option Coord2D),
      (SnapPoints.getNearestNeighbor sp coord exc = none ↔
        SnapPoints.nnCandidates sp coord exc = []) ∧
      (∀ c, SnapPoints.getNearestNeighbor sp coord exc = some c →
        c ∈ SnapPoints.nnCandidates sp coord exc ∧
        ∀ q ∈ SnapPoints.nnCandidates sp coord exc,
          Coord2D.distanceTo coord c ≤ Coord2D.distanceTo coord q)) ∧
    (∀ w : ℝ, 0 < w →
      SnapPoints.getNearestNeighbor ⟨2, w, [⟨0, 0⟩, ⟨5, 5⟩], [], 1⟩ ⟨1, 1⟩ none
        = some ⟨0, 0⟩) := by
  constructor
  · intro sp coord exc
    constructor
    · rw [SnapPoints.getNearestNeighbor, Option.map_eq_none']
      exact SnapPoints.nnGo_none_iff coord exc _
    · intro c hc
      rw [SnapPoints.getNearestNeighbor, Option.map_eq_some'] at hc
      obtain ⟨⟨c', dc⟩, hpr, hc'⟩ := hc
      cases hc'
      obtain ⟨h1, h2, _⟩ := SnapPoints.nnGo_min coord exc _ none c' dc hpr
      rcases h1 with h1 | h1
      · exact Option.noConfusion h1
      · exact ⟨h1.1, fun q hq => h1.2 ▸ h2 q hq⟩
  · intro w hw
    show (SnapPoints.nnGo ⟨1, 1⟩ none
      (SpatialHash.search w [⟨0, 0⟩, ⟨5, 5⟩] ⟨1, 1⟩ ((2 : ℝ) / 1)) none).map Prod.fst
        = some ⟨0, 0⟩
    rw [show ((2 : ℝ) / 1) = 2 by norm_num]
    have hda : ¬ (Coord2D.distanceTo ⟨1, 1⟩ ⟨5, 5⟩ < Coord2D.distanceTo ⟨1, 1⟩ ⟨0, 0⟩) := by
      rw [not_lt]
      dsimp only [Coord2D.distanceTo]
      exact Real.sqrt_le_sqrt (by norm_num)
    simp only [SpatialHash.search]
    split
    · split
      · simp only [SnapPoints.nnGo, SnapPoints.keepCand, if_true, if_neg hda]
        rfl
      · simp only [SnapPoints.nnGo, SnapPoints.keepCand, if_true]
        rfl
    · next hcond =>
      exfalso
      apply hcond
      refine ⟨⟨?_, ?_⟩, ?_, ?_⟩ <;>
        exact SnapPoints.floor_div_le_floor_div hw (by norm_num)

/-- Witness for C2: the concrete scenario of the claim, with bucket width 1. -/
theorem getNearestNeighbor_spec_witness :
    (0 : ℝ) < 1 ∧
      SnapPoints.getNearestNeighbor ⟨2, 1, [⟨0, 0⟩, ⟨5, 5⟩], [], 1⟩ ⟨1, 1⟩ none
        = some ⟨0, 0⟩ :=
  ⟨by norm_num, getNearestNeighbor_spec.2 1 (by norm_num)⟩

/-- Counterexample to C2 as stated: the exclusion guard runs on every
candidate, so with the index holding the point (0,0) twice, a query at (1,1)
excluding (0,0) discards both copies and returns (3,3) — yet (0,0) occurs
twice among the search candidates and is strictly closer to the query point,
so under "excludes at most one matching candidate" the result would have to
be (0,0).  The code excludes every matching candidate, not at most one. -/
theorem getNearestNeighbor_cex :
    SnapPoints.getNearestNeighbor ⟨100, 10, [⟨0, 0⟩, ⟨0, 0⟩, ⟨3, 3⟩], [], 1⟩ ⟨1, 1⟩
        (some ⟨0, 0⟩) = some ⟨3, 3⟩ ∧
    SpatialHash.search 10 [⟨0, 0⟩, ⟨0, 0⟩, ⟨3, 3⟩] ⟨1, 1⟩ (100 / 1)
      = [⟨0, 0⟩, ⟨0, 0⟩, ⟨3, 3⟩] ∧
    Coord2D.isEqual ⟨0, 0⟩ ⟨0, 0⟩ ∧
    Coord2D.distanceTo ⟨1, 1⟩ ⟨0, 0⟩ < Coord2D.distanceTo ⟨1, 1⟩ ⟨3, 3⟩ := by
  have hsearch : SpatialHash.search 10 [(⟨0, 0⟩ : Coord2D), ⟨0, 0⟩, ⟨3, 3⟩] ⟨1, 1⟩ (100 / 1)
      = [⟨0, 0⟩, ⟨0, 0⟩, ⟨3, 3⟩] := by
    simp only [SpatialHash.search]
    rw [if_pos (by norm_num), if_pos (by norm_num), if_pos (by norm_num)]
  have heq : Coord2D.isEqual ⟨0, 0⟩ ⟨0, 0⟩ := by
    norm_num [Coord2D.isEqual, Util.equals, Util.tolerance]
  have hne : ¬ Coord2D.isEqual ⟨3, 3⟩ ⟨0, 0⟩ := by
    norm_num [Coord2D.isEqual, Util.equals, Util.tolerance]
  refine ⟨?_, hsearch, heq, ?_⟩
  · show (SnapPoints.nnGo ⟨1, 1⟩ (some ⟨0, 0⟩)
      (SpatialHash.search 10 [⟨0, 0⟩, ⟨0, 0⟩, ⟨3, 3⟩] ⟨1, 1⟩ ((100 : ℝ) / 1)) none).map Prod.fst
        = some ⟨3, 3⟩
    rw [hsearch]
    simp only [SnapPoints.nnGo, SnapPoints.keepCand]
    rw [if_neg (not_not_intro heq), if_neg (not_not_intro heq), if_pos hne]
    rfl
  · dsimp only [Coord2D.distanceTo]
    exact Real.sqrt_lt_sqrt (by norm_num) (by norm_num)

/-! ## Circle-circle intersection -/

namespace SnapPoints

lemma angleIsBetweenAngles_full (θ sa : ℝ) :
    Util.angleIsBetweenAngles θ sa (sa + 2 * Real.pi) := by
  have h2pi : (0 : ℝ) < 2 * Real.pi := by positivity
  rw [Util.angleIsBetweenAngles, min_eq_left (by linarith), max_eq_right (by linarith)]
  refine ⟨⌈(sa - θ) / (2 * Real.pi)⌉, ?_, ?_⟩
  · have h := Int.le_ceil ((sa - θ) / (2 * Real.pi))
    rw [div_le_iff₀ h2pi] at h
    have hc : (⌈(sa - θ) / (2 * Real.pi)⌉ : ℝ) * (2 * Real.pi)
        = 2 * Real.pi * ⌈(sa - θ) / (2 * Real.pi)⌉ := mul_comm _ _
    linarith
  · have h := Int.ceil_lt_add_one ((sa - θ) / (2 * Real.pi))
    have h3 : (⌈(sa - θ) / (2 * Real.pi)⌉ : ℝ) * (2 * Real.pi)
        < ((sa - θ) / (2 * Real.pi) + 1) * (2 * Real.pi) :=
      mul_lt_mul_of_pos_right h h2pi
    rw [add_mul, div_mul_cancel₀ _ (ne_of_gt h2pi), one_mul] at h3
    have hc : (⌈(sa - θ) / (2 * Real.pi)⌉ : ℝ) * (2 * Real.pi)
        = 2 * Real.pi * ⌈(sa - θ) / (2 * Real.pi)⌉ := mul_comm _ _
    linarith

lemma filterOnArc_full (center : Coord2D) (sa : ℝ) :
    ∀ l : List Coord2D, filterOnArc center sa (sa + 2 * Real.pi) l = l := by
  intro l
  induction l with
  | nil => rfl
  | cons s rest ih =>
    rw [filterOnArc, if_pos (angleIsBetweenAngles_full _ _), ih]

lemma floorToDecimal_apart {x y : ℝ}
    (h : Util.floorToDecimal x 6 ≠ Util.floorToDecimal y 6) :
    (1 : ℝ) / 10 ^ 6 ≤ |Util.floorToDecimal x 6 - Util.floorToDecimal y 6| := by
  simp only [Util.floorToDecimal] at h ⊢
  have hmn : ⌊x * 10 ^ 6⌋ ≠ ⌊y * 10 ^ 6⌋ := by
    intro hc
    exact h (by rw [hc])
  have h1 : (1 : ℝ) ≤ |(⌊x * 10 ^ 6⌋ : ℝ) - ⌊y * 10 ^ 6⌋| := by
    have hz : (1 : ℤ) ≤ |⌊x * 10 ^ 6⌋ - ⌊y * 10 ^ 6⌋| :=
      Int.one_le_abs (sub_ne_zero.mpr hmn)
    calc (1 : ℝ) = ((1 : ℤ) : ℝ) := by norm_num
    _ ≤ ((|⌊x * 10 ^ 6⌋ - ⌊y * 10 ^ 6⌋| : ℤ) : ℝ) := by exact_mod_cast hz
    _ = |(⌊x * 10 ^ 6⌋ : ℝ) - ⌊y * 10 ^ 6⌋| := by push_cast; rfl
  rw [div_sub_div_same, abs_div, abs_of_pos (by norm_num : (0:ℝ) < 10 ^ 6)]
  gcongr

lemma equals_floorToDecimal_iff (x y : ℝ) :
    Util.equals (Util.floorToDecimal x 6) (Util.floorToDecimal y 6) Util.tolerance ↔
      Util.floorToDecimal x 6 = Util.floorToDecimal y 6 := by
  constructor
  · intro h
    by_contra hne
    have hsep := floorToDecimal_apart hne
    rw [Util.equals, Util.tolerance] at h
    norm_num at hsep h
    linarith
  · intro h
    rw [Util.equals, h, sub_self, abs_zero, Util.tolerance]
    norm_num

lemma floorToDecimal_nonneg {x : ℝ} (hx : 0 ≤ x) : 0 ≤ Util.floorToDecimal x 6 := by
  rw [Util.floorToDecimal]
  apply div_nonneg _ (by norm_num)
  exact_mod_cast Int.floor_nonneg.mpr (by positivity)

lemma isect_carccarc_of_d_eq_zero (a1 a2 : Carc) (h : carcD a1 a2 = 0) :
    isect_carccarc a1 a2 = [] := by
  have hrd : 0 ≤ carcRdiff a1 a2 := floorToDecimal_nonneg (abs_nonneg _)
  rw [isect_carccarc, carcSolutions]
  split_ifs with hb1 hb2
  · exfalso
    rw [h] at hb1
    exact absurd hb1.2 (not_lt.mpr hrd)
  · exact absurd h hb2.1
  · rfl

end SnapPoints

/-- C10.  For two circular arcs whose floored center distance is zero
(concentric supporting circles, including coincident equal-radius circles),
the circle-circle solver returns the empty sequence: the tangency branch that
divides by the center distance is guarded by d != 0, so no point is produced
— and the embedding is total, so no error either — even when d equals the
rounded radius difference. -/
theorem isect_carccarc_concentric (a1 a2 : Carc) (h : SnapPoints.carcD a1 a2 = 0) :
    SnapPoints.isect_carccarc a1 a2 = [] :=
  SnapPoints.isect_carccarc_of_d_eq_zero a1 a2 h

/-- Witness for C10: concentric full circles of radii 1 and 2 produce no
intersection points. -/
theorem isect_carccarc_concentric_witness :
    SnapPoints.carcD ⟨⟨0, 0⟩, 1, 0, 2 * Real.pi⟩ ⟨⟨0, 0⟩, 2, 0, 2 * Real.pi⟩ = 0 ∧
      SnapPoints.isect_carccarc ⟨⟨0, 0⟩, 1, 0, 2 * Real.pi⟩ ⟨⟨0, 0⟩, 2, 0, 2 * Real.pi⟩ = [] := by
  have hd : SnapPoints.carcD ⟨⟨0, 0⟩, 1, 0, 2 * Real.pi⟩ ⟨⟨0, 0⟩, 2, 0, 2 * Real.pi⟩ = 0 := by
    rw [SnapPoints.carcD]
    dsimp only [Coord2D.distanceTo]
    norm_num [Real.sqrt_zero, Util.floorToDecimal]
  exact ⟨hd, isect_carccarc_concentric _ _ hd⟩

/-- C4 (amended).  For two full circles the circle-circle solver compares the
floored (6-decimal) center distance d against the floored radius sum and the
floored absolute radius difference: it returns no points when d exceeds the
radius sum or is less than the radius difference, exactly one point when d is
nonzero and equals the radius sum or the radius difference after the
rounding (in particular d exactly equal to radius1+radius2 gives exactly one
point), two points when rdiff < d < rsum, and no points in the concentric
case d = 0 — even when d then equals the rounded radius difference. -/
theorem isect_carccarc_full_counts (a1 a2 : Carc)
    (h1 : a1.IsFullCircle) (h2 : a2.IsFullCircle) :
    (SnapPoints.isect_carccarc a1 a2).length =
      if SnapPoints.carcD a1 a2 < SnapPoints.carcRsum a1 a2
          ∧ SnapPoints.carcD a1 a2 > SnapPoints.carcRdiff a1 a2 then 2
      else if SnapPoints.carcD a1 a2 ≠ 0
          ∧ (SnapPoints.carcD a1 a2 = SnapPoints.carcRsum a1 a2
            ∨ SnapPoints.carcD a1 a2 = SnapPoints.carcRdiff a1 a2) then 1
      else 0 := by
  rw [Carc.IsFullCircle] at h1 h2
  rw [SnapPoints.isect_carccarc, h1, h2, SnapPoints.filterOnArc_full]
  rw [SnapPoints.filterOnArc_full]
  have hsum : Util.equals (SnapPoints.carcRsum a1 a2) (SnapPoints.carcD a1 a2) Util.tolerance
      ↔ SnapPoints.carcD a1 a2 = SnapPoints.carcRsum a1 a2 := by
    rw [SnapPoints.carcRsum, SnapPoints.carcD, SnapPoints.equals_floorToDecimal_iff, eq_comm]
  have hdiff : Util.equals (SnapPoints.carcRdiff a1 a2) (SnapPoints.carcD a1 a2) Util.tolerance
      ↔ SnapPoints.carcD a1 a2 = SnapPoints.carcRdiff a1 a2 := by
    rw [SnapPoints.carcRdiff, SnapPoints.carcD, SnapPoints.equals_floorToDecimal_iff, eq_comm]
  rw [SnapPoints.carcSolutions]
  simp only [hsum, hdiff]
  split_ifs <;> simp

/-- Counterexample to C4 as stated: two coincident full unit circles have
d = 0 equal (after rounding) to the radius difference, yet the solver
produces no intersection point rather than the single point the claim
demands, because the tangency branch is guarded by d != 0. -/
theorem isect_carccarc_tangency_cex :
    SnapPoints.carcD ⟨⟨0, 0⟩, 1, 0, 2 * Real.pi⟩ ⟨⟨0, 0⟩, 1, 0, 2 * Real.pi⟩
        = SnapPoints.carcRdiff ⟨⟨0, 0⟩, 1, 0, 2 * Real.pi⟩ ⟨⟨0, 0⟩, 1, 0, 2 * Real.pi⟩ ∧
      Carc.IsFullCircle ⟨⟨0, 0⟩, 1, 0, 2 * Real.pi⟩ ∧
      (SnapPoints.isect_carccarc ⟨⟨0, 0⟩, 1, 0, 2 * Real.pi⟩
        ⟨⟨0, 0⟩, 1, 0, 2 * Real.pi⟩).length = 0 := by
  have hd : SnapPoints.carcD ⟨⟨0, 0⟩, 1, 0, 2 * Real.pi⟩ ⟨⟨0, 0⟩, 1, 0, 2 * Real.pi⟩ = 0 := by
    rw [SnapPoints.carcD]
    dsimp only [Coord2D.distanceTo]
    norm_num [Real.sqrt_zero, Util.floorToDecimal]
  have hrd : SnapPoints.carcRdiff ⟨⟨0, 0⟩, 1, 0, 2 * Real.pi⟩ ⟨⟨0, 0⟩, 1, 0, 2 * Real.pi⟩
      = 0 := by
    rw [SnapPoints.carcRdiff]
    norm_num [Util.floorToDecimal]
  refine ⟨by rw [hd, hrd], rfl, ?_⟩
  rw [SnapPoints.isect_carccarc_of_d_eq_zero _ _ hd]
  rfl

/-- Witness for C4: full circles of radii 1 and 2 with centers 3 apart are
externally tangent (d = rsum = 3 after rounding) and yield exactly one
intersection point. -/
theorem isect_carccarc_full_counts_witness :
    (SnapPoints.isect_carccarc ⟨⟨0, 0⟩, 1, 0, 2 * Real.pi⟩
      ⟨⟨3, 0⟩, 2, 0, 2 * Real.pi⟩).length = 1 := by
  rw [isect_carccarc_full_counts ⟨⟨0, 0⟩, 1, 0, 2 * Real.pi⟩ ⟨⟨3, 0⟩, 2, 0, 2 * Real.pi⟩
    rfl rfl]
  have hd : SnapPoints.carcD ⟨⟨0, 0⟩, 1, 0, 2 * Real.pi⟩ ⟨⟨3, 0⟩, 2, 0, 2 * Real.pi⟩ = 3 := by
    rw [SnapPoints.carcD]
    dsimp only [Coord2D.distanceTo]
    rw [show ((3:ℝ) - 0) ^ 2 + ((0:ℝ) - 0) ^ 2 = 3 ^ 2 by norm_num,
      Real.sqrt_sq (by norm_num : (0:ℝ) ≤ 3)]
    norm_num [Util.floorToDecimal]
  have hs : SnapPoints.carcRsum ⟨⟨0, 0⟩, 1, 0, 2 * Real.pi⟩ ⟨⟨3, 0⟩, 2, 0, 2 * Real.pi⟩ = 3 := by
    rw [SnapPoints.carcRsum]
    norm_num [Util.floorToDecimal]
  have hdf : SnapPoints.carcRdiff ⟨⟨0, 0⟩, 1, 0, 2 * Real.pi⟩ ⟨⟨3, 0⟩, 2, 0, 2 * Real.pi⟩
      = 1 := by
    rw [SnapPoints.carcRdiff]
    norm_num [Util.floorToDecimal]
  rw [hd, hs, hdf]
  norm_num

/-- C3.  Evaluation of the code at the failing input of the symmetry claim:
for two internally tangent full circles (radius 2 at the origin, radius 1 at
(1,0); both of type name "carc", so the name-keyed dispatch cannot
canonicalise the order), testIntersections with the query shape first yields
the true tangency point (2,0), while the swapped call yields (0,0) — a point
lying on neither circle.  The point sets differ, contradicting the symmetry
the specification states and the solver's own single-intersection comment;
the tangency formula arc1.radius / d is only valid when arc1 is the larger
(or externally tangent) circle. -/
theorem testIntersections_carccarc_asymmetric :
    (SnapPoints.testIntersections ⟨1, 1, [], [], 1⟩ (Shape.carc ⟨⟨0, 0⟩, 2, 0, 2 * Real.pi⟩)
        [some (Shape.carc ⟨⟨1, 0⟩, 1, 0, 2 * Real.pi⟩)] SnapPoints.nopFlag).1.2 = [⟨2, 0⟩] ∧
    (SnapPoints.testIntersections ⟨1, 1, [], [], 1⟩ (Shape.carc ⟨⟨1, 0⟩, 1, 0, 2 * Real.pi⟩)
        [some (Shape.carc ⟨⟨0, 0⟩, 2, 0, 2 * Real.pi⟩)] SnapPoints.nopFlag).1.2 = [⟨0, 0⟩] ∧
    ((⟨2, 0⟩ : Coord2D) ≠ ⟨0, 0⟩) := by
  have hd1 : SnapPoints.carcD ⟨⟨0, 0⟩, 2, 0, 2 * Real.pi⟩ ⟨⟨1, 0⟩, 1, 0, 2 * Real.pi⟩ = 1 := by
    rw [SnapPoints.carcD]
    dsimp only [Coord2D.distanceTo]
    rw [show ((1:ℝ) - 0) ^ 2 + ((0:ℝ) - 0) ^ 2 = 1 by norm_num, Real.sqrt_one]
    norm_num [Util.floorToDecimal]
  have hd2 : SnapPoints.carcD ⟨⟨1, 0⟩, 1, 0, 2 * Real.pi⟩ ⟨⟨0, 0⟩, 2, 0, 2 * Real.pi⟩ = 1 := by
    rw [SnapPoints.carcD]
    dsimp only [Coord2D.distanceTo]
    rw [show ((0:ℝ) - 1) ^ 2 + ((0:ℝ) - 0) ^ 2 = 1 by norm_num, Real.sqrt_one]
    norm_num [Util.floorToDecimal]
  have hs1 : SnapPoints.carcRsum ⟨⟨0, 0⟩, 2, 0, 2 * Real.pi⟩ ⟨⟨1, 0⟩, 1, 0, 2 * Real.pi⟩
      = 3 := by
    rw [SnapPoints.carcRsum]; norm_num [Util.floorToDecimal]
  have hs2 : SnapPoints.carcRsum ⟨⟨1, 0⟩, 1, 0, 2 * Real.pi⟩ ⟨⟨0, 0⟩, 2, 0, 2 * Real.pi⟩
      = 3 := by
    rw [SnapPoints.carcRsum]; norm_num [Util.floorToDecimal]
  have hf1 : SnapPoints.carcRdiff ⟨⟨0, 0⟩, 2, 0, 2 * Real.pi⟩ ⟨⟨1, 0⟩, 1, 0, 2 * Real.pi⟩
      = 1 := by
    rw [SnapPoints.carcRdiff]; norm_num [Util.floorToDecimal]
  have hf2 : SnapPoints.carcRdiff ⟨⟨1, 0⟩, 1, 0, 2 * Real.pi⟩ ⟨⟨0, 0⟩, 2, 0, 2 * Real.pi⟩
      = 1 := by
    rw [SnapPoints.carcRdiff]; norm_num [Util.floorToDecimal]
  have hsol1 : SnapPoints.carcSolutions ⟨⟨0, 0⟩, 2, 0, 2 * Real.pi⟩
      ⟨⟨1, 0⟩, 1, 0, 2 * Real.pi⟩ = [⟨2, 0⟩] := by
    simp only [SnapPoints.carcSolutions, hd1, hs1, hf1]
    norm_num [Util.equals, Util.tolerance, Coord2D.mk.injEq]
  have hsol2 : SnapPoints.carcSolutions ⟨⟨1, 0⟩, 1, 0, 2 * Real.pi⟩
      ⟨⟨0, 0⟩, 2, 0, 2 * Real.pi⟩ = [⟨0, 0⟩] := by
    simp only [SnapPoints.carcSolutions, hd2, hs2, hf2]
    norm_num [Util.equals, Util.tolerance, Coord2D.mk.injEq]
  have hcc1 : SnapPoints.isect_carccarc ⟨⟨0, 0⟩, 2, 0, 2 * Real.pi⟩
      ⟨⟨1, 0⟩, 1, 0, 2 * Real.pi⟩ = [⟨2, 0⟩] := by
    rw [SnapPoints.isect_carccarc]
    dsimp only
    rw [hsol1, SnapPoints.filterOnArc_full, SnapPoints.filterOnArc_full]
  have hcc2 : SnapPoints.isect_carccarc ⟨⟨1, 0⟩, 1, 0, 2 * Real.pi⟩
      ⟨⟨0, 0⟩, 2, 0, 2 * Real.pi⟩ = [⟨0, 0⟩] := by
    rw [SnapPoints.isect_carccarc]
    dsimp only
    rw [hsol2, SnapPoints.filterOnArc_full, SnapPoints.filterOnArc_full]
  have hdisp1 : SnapPoints.dispatchPair (Shape.carc ⟨⟨1, 0⟩, 1, 0, 2 * Real.pi⟩)
      (Shape.carc ⟨⟨0, 0⟩, 2, 0, 2 * Real.pi⟩)
      = SnapPoints.isect_carccarc ⟨⟨0, 0⟩, 2, 0, 2 * Real.pi⟩
          ⟨⟨1, 0⟩, 1, 0, 2 * Real.pi⟩ := rfl
  have hdisp2 : SnapPoints.dispatchPair (Shape.carc ⟨⟨0, 0⟩, 2, 0, 2 * Real.pi⟩)
      (Shape.carc ⟨⟨1, 0⟩, 1, 0, 2 * Real.pi⟩)
      = SnapPoints.isect_carccarc ⟨⟨1, 0⟩, 1, 0, 2 * Real.pi⟩
          ⟨⟨0, 0⟩, 2, 0, 2 * Real.pi⟩ := rfl
  refine ⟨?_, ?_, ?_⟩
  · simp only [SnapPoints.testIntersections, SnapPoints.tiGo, hdisp1, hcc1, List.append_nil]
  · simp only [SnapPoints.testIntersections, SnapPoints.tiGo, hdisp2, hcc2, List.append_nil]
  · intro hc
    have := congrArg Coord2D.x hc
    norm_num at this

/-! ## Circle-line intersection counts -/

/-- C5.  The circle-line solver forms a quadratic in the segment parameter t:
a discriminant within tolerance 1e-25 of zero yields exactly one point
(namely the double root, accepted only when t lies in [0,1]); a larger
positive discriminant yields one point per root with t in [0,1] (so up to
two); a discriminant at least 1e-25 below zero yields none. -/
theorem isect_circleline_counts (circle : Circle) (line : Line) :
    (SnapPoints.isect_circleline circle line).length =
      if |SnapPoints.circlelineDisc circle line| < 1e-25 then
        (if 0 ≤ SnapPoints.circlelineT circle line
            ∧ SnapPoints.circlelineT circle line ≤ 1 then 1 else 0)
      else if 0 < SnapPoints.circlelineDisc circle line then
        (if 0 ≤ SnapPoints.circlelineT1 circle line
            ∧ SnapPoints.circlelineT1 circle line ≤ 1 then 1 else 0)
          + (if 0 ≤ SnapPoints.circlelineT2 circle line
              ∧ SnapPoints.circlelineT2 circle line ≤ 1 then 1 else 0)
      else 0 := by
  have habs : Util.equals (SnapPoints.circlelineDisc circle line) 0 1e-25
      ↔ |SnapPoints.circlelineDisc circle line| < 1e-25 := by
    rw [Util.equals, sub_zero]
  simp only [SnapPoints.isect_circleline, habs]
  split_ifs <;> simp

/-! ## Tangents through an external point -/

/-- C9.  For an ellipse given by conic coefficients and a point p at which
the linear coefficient Q is nonzero, getTangentsThrough returns no tangency
points when the discriminant of the reduced quadratic is at least the
tolerance below zero, the single point p itself when the discriminant is
within tolerance 1e-25 of zero, and exactly two tangency points when it is
at least the tolerance above zero.  (The Q = 0 case is the acknowledged
unhandled gap: the source's guard is commented out, so the function computes
with Q = 0 as well, outside the claim's scope.) -/
theorem getTangentsThrough_spec (e : EllipticalShape) (p : Coord2D)
    (hQ : EllipticalShape.tanQ e p ≠ 0) :
    (EllipticalShape.tanDisc e p ≤ -(1e-25) →
      EllipticalShape.getTangentsThrough e p = []) ∧
    (|EllipticalShape.tanDisc e p| < 1e-25 →
      EllipticalShape.getTangentsThrough e p = [p]) ∧
    (1e-25 ≤ EllipticalShape.tanDisc e p →
      (EllipticalShape.getTangentsThrough e p).length = 2) := by
  refine ⟨?_, ?_, ?_⟩
  · intro h
    have hne : ¬ Util.equals (EllipticalShape.tanDisc e p) 0 1e-25 := by
      rw [Util.equals, sub_zero, not_lt, abs_of_nonpos (by linarith)]
      linarith
    have hnp : ¬ (0 < EllipticalShape.tanDisc e p) := by
      have : (0:ℝ) < 1e-25 := by norm_num
      linarith
    rw [EllipticalShape.getTangentsThrough, if_neg hne, if_neg hnp]
  · intro h
    have hp : Util.equals (EllipticalShape.tanDisc e p) 0 1e-25 := by
      rw [Util.equals, sub_zero]
      exact h
    rw [EllipticalShape.getTangentsThrough, if_pos hp]
  · intro h
    have h0 : (0:ℝ) < 1e-25 := by norm_num
    have hne : ¬ Util.equals (EllipticalShape.tanDisc e p) 0 1e-25 := by
      rw [Util.equals, sub_zero, not_lt, abs_of_nonneg (by linarith)]
      linarith
    rw [EllipticalShape.getTangentsThrough, if_neg hne, if_pos (by linarith)]
    rfl

/-- Witness for C9: the unit circle as a conic (coefficients [1,0,1,0,0,-1])
and the external point (0,2): Q = 2 is nonzero, the discriminant is 3, and
exactly two tangency points are returned. -/
theorem getTangentsThrough_spec_witness :
    (1e-25 : ℝ) ≤ EllipticalShape.tanDisc ⟨⟨0, 0⟩, 1, 1, 0, [1, 0, 1, 0, 0, -1]⟩ ⟨0, 2⟩ ∧
    (EllipticalShape.getTangentsThrough
      ⟨⟨0, 0⟩, 1, 1, 0, [1, 0, 1, 0, 0, -1]⟩ ⟨0, 2⟩).length = 2 := by
  have hdisc : EllipticalShape.tanDisc ⟨⟨0, 0⟩, 1, 1, 0, [1, 0, 1, 0, 0, -1]⟩ ⟨0, 2⟩ = 3 := by
    norm_num [EllipticalShape.tanDisc, EllipticalShape.tanA, EllipticalShape.tanB,
      EllipticalShape.tanC, EllipticalShape.tanP, EllipticalShape.tanQ,
      EllipticalShape.tanR, List.getD]
  constructor
  · rw [hdisc]; norm_num
  · refine (getTangentsThrough_spec ⟨⟨0, 0⟩, 1, 1, 0, [1, 0, 1, 0, 0, -1]⟩ ⟨0, 2⟩ ?_).2.2 ?_
    · norm_num [EllipticalShape.tanQ, List.getD]
    · rw [hdisc]; norm_num

end Alberti
